import Mathlib

/-!
# Verification of the System-Monitoring-Tool sampling engine

A shallow embedding of `app.py` (class `SystemMonitor`).  Each `psutil` /
`platform` query is modelled by an explicit platform-state argument; the
collector functions are translated statement-by-statement from the source.
Python floats are modelled by `ℚ`, Python ints by `ℤ`/`ℕ`, Python `None`
by `Option`, and a caught exception class by an explicit error value.
All definitions are executable.
-/

namespace SysMon

/-- A Python value as it may reach `_format_bytes`: the code checks
`isinstance(bytes_value, (int, float))` and returns `"N/A"` otherwise. -/
inductive PyVal where
  | int (n : ℤ)
  | float (q : ℚ)
  | str (s : String)
  | none
deriving DecidableEq

/-- `true` exactly when `isinstance(v, (int, float))` holds in Python. -/
def PyVal.isNumeric : PyVal → Bool
  | .int _ => true
  | .float _ => true
  | _ => false

/-- Round-half-to-even of the fraction `n / d` (for `d ≠ 0`), modelling the
rounding Python uses for `round(x, k)` and for the `%.2f` format specifier.
Computed with integer floor division so that the kernel can evaluate it. -/
def roundHalfEvenFrac (n : ℤ) (d : ℕ) : ℤ :=
  let q := Int.fdiv n d
  let r := n - q * d
  if 2 * r < d then q
  else if (d : ℤ) < 2 * r then q + 1
  else if q % 2 = 0 then q else q + 1

/-- Render `q` with exactly two digits after the decimal point, modelling the
Python format `f"{q:.2f}"`: round-half-even of `q·100`, then print with the
decimal point re-inserted. -/
def fix2 (q : ℚ) : String :=
  let n := roundHalfEvenFrac (q.num * 100) q.den
  let m := n.natAbs
  let frac := m % 100
  (if n < 0 then "-" else "")
    ++ toString (m / 100)
    ++ "."
    ++ (if frac < 10 then "0" ++ toString frac else toString frac)

/-- The `for unit in ['B','KB','MB','GB','TB']` loop of `_format_bytes`:
return at the first unit where the value is below 1024, otherwise divide by
1024 and move on to the next unit; when the listed units are exhausted the
value is rendered in PB. -/
def formatBytesLoop : List String → ℚ → String
  | [], v => fix2 v ++ " PB"
  | u :: us, v => if v < 1024 then fix2 v ++ " " ++ u else formatBytesLoop us (v / 1024)

/-- `SystemMonitor._format_bytes` (app.py lines 151-159). -/
def _format_bytes (bytes_value : PyVal) : String :=
  match bytes_value with
  | .int n => formatBytesLoop ["B", "KB", "MB", "GB", "TB"] (n : ℚ)
  | .float q => formatBytesLoop ["B", "KB", "MB", "GB", "TB"] q
  | _ => "N/A"

/-- The unit suffix reached after `k` divisions by 1024. -/
def unitAt (k : ℕ) : String := ["B", "KB", "MB", "GB", "TB"].getD k "PB"

theorem formatBytesLoop_lt (u : String) (us : List String) {v : ℚ} (h : v < 1024) :
    formatBytesLoop (u :: us) v = fix2 v ++ " " ++ u := by
  rw [formatBytesLoop, if_pos h]

theorem formatBytesLoop_ge (u : String) (us : List String) {v : ℚ} (h : ¬ v < 1024) :
    formatBytesLoop (u :: us) v = formatBytesLoop us (v / 1024) := by
  rw [formatBytesLoop, if_neg h]

theorem fmt_zero : _format_bytes (.int 0) = "0.00 B" := by
  rw [_format_bytes]
  rw [formatBytesLoop_lt _ _ (by norm_num)]
  norm_num
  decide

theorem fmt_1024 : _format_bytes (.int 1024) = "1.00 KB" := by
  rw [_format_bytes]
  rw [formatBytesLoop_ge _ _ (by norm_num)]
  have h : ((1024 : ℤ) : ℚ) / 1024 = 1 := by norm_num
  rw [h, formatBytesLoop_lt _ _ (by norm_num)]
  decide

theorem fmt_1536 : _format_bytes (.int 1536) = "1.50 KB" := by
  rw [_format_bytes]
  rw [formatBytesLoop_ge _ _ (by norm_num)]
  have h : ((1536 : ℤ) : ℚ) / 1024 = Rat.divInt 3 2 := by
    rw [Rat.divInt_eq_div]; norm_num
  rw [h, formatBytesLoop_lt _ _ (by decide)]
  decide

theorem div_pow_succ (q : ℚ) (k : ℕ) :
    q / 1024 ^ k / 1024 = q / 1024 ^ (k + 1) := by
  rw [div_div, ← pow_succ]

/-- The unit band the loop lands in: if `1024^k ≤ q < 1024^(k+1)` for some
`k < 5`, the loop divides exactly `k` times and renders in the `k`-th unit. -/
theorem formatLoop_band (q : ℚ) (k : ℕ) (hk : k < 5)
    (hlow : 1024 ^ k ≤ q) (hhigh : q < 1024 ^ (k + 1)) :
    formatBytesLoop ["B", "KB", "MB", "GB", "TB"] q
      = fix2 (q / 1024 ^ k) ++ " " ++ unitAt k := by
  interval_cases k
  · norm_num at hlow hhigh
    rw [formatBytesLoop_lt _ _ hhigh, pow_zero, div_one]
    rfl
  · norm_num at hlow hhigh
    rw [formatBytesLoop_ge _ _ (not_lt.2 hlow)]
    rw [show q / 1024 = q / 1024 ^ 1 from by rw [pow_one]]
    rw [formatBytesLoop_lt _ _ (by
      rw [div_lt_iff₀ (by positivity)]; norm_num; linarith)]
    rfl
  · norm_num at hlow hhigh
    have h0 : ¬ q < 1024 := by push_neg; linarith
    rw [formatBytesLoop_ge _ _ h0]
    rw [show q / 1024 = q / 1024 ^ 1 from by rw [pow_one]]
    have h1 : ¬ q / 1024 ^ 1 < 1024 := by
      rw [not_lt, le_div_iff₀ (by positivity)]; norm_num; linarith
    rw [formatBytesLoop_ge _ _ h1, div_pow_succ]
    rw [formatBytesLoop_lt _ _ (by
      rw [div_lt_iff₀ (by positivity)]; norm_num; linarith)]
    rfl
  · norm_num at hlow hhigh
    have h0 : ¬ q < 1024 := by push_neg; linarith
    rw [formatBytesLoop_ge _ _ h0]
    rw [show q / 1024 = q / 1024 ^ 1 from by rw [pow_one]]
    have h1 : ¬ q / 1024 ^ 1 < 1024 := by
      rw [not_lt, le_div_iff₀ (by positivity)]; norm_num; linarith
    rw [formatBytesLoop_ge _ _ h1, div_pow_succ]
    have h2 : ¬ q / 1024 ^ 2 < 1024 := by
      rw [not_lt, le_div_iff₀ (by positivity)]; norm_num; linarith
    rw [formatBytesLoop_ge _ _ h2, div_pow_succ]
    rw [formatBytesLoop_lt _ _ (by
      rw [div_lt_iff₀ (by positivity)]; norm_num; linarith)]
    rfl
  · norm_num at hlow hhigh
    have h0 : ¬ q < 1024 := by push_neg; linarith
    rw [formatBytesLoop_ge _ _ h0]
    rw [show q / 1024 = q / 1024 ^ 1 from by rw [pow_one]]
    have h1 : ¬ q / 1024 ^ 1 < 1024 := by
      rw [not_lt, le_div_iff₀ (by positivity)]; norm_num; linarith
    rw [formatBytesLoop_ge _ _ h1, div_pow_succ]
    have h2 : ¬ q / 1024 ^ 2 < 1024 := by
      rw [not_lt, le_div_iff₀ (by positivity)]; norm_num; linarith
    rw [formatBytesLoop_ge _ _ h2, div_pow_succ]
    have h3 : ¬ q / 1024 ^ 3 < 1024 := by
      rw [not_lt, le_div_iff₀ (by positivity)]; norm_num; linarith
    rw [formatBytesLoop_ge _ _ h3, div_pow_succ]
    rw [formatBytesLoop_lt _ _ (by
      rw [div_lt_iff₀ (by positivity)]; norm_num; linarith)]
    rfl

/-- Beyond the last listed unit the loop never escalates past PB: a value of
at least `1024^5` bytes is divided five times and rendered in PB. -/
theorem formatLoop_pb (q : ℚ) (h : (1024 : ℚ) ^ 5 ≤ q) :
    formatBytesLoop ["B", "KB", "MB", "GB", "TB"] q
      = fix2 (q / 1024 ^ 5) ++ " PB" := by
  norm_num at h
  have h0 : ¬ q < 1024 := by push_neg; linarith
  rw [formatBytesLoop_ge _ _ h0]
  rw [show q / 1024 = q / 1024 ^ 1 from by rw [pow_one]]
  have h1 : ¬ q / 1024 ^ 1 < 1024 := by
    rw [not_lt, le_div_iff₀ (by positivity)]; norm_num; linarith
  rw [formatBytesLoop_ge _ _ h1, div_pow_succ]
  have h2 : ¬ q / 1024 ^ 2 < 1024 := by
    rw [not_lt, le_div_iff₀ (by positivity)]; norm_num; linarith
  rw [formatBytesLoop_ge _ _ h2, div_pow_succ]
  have h3 : ¬ q / 1024 ^ 3 < 1024 := by
    rw [not_lt, le_div_iff₀ (by positivity)]; norm_num; linarith
  rw [formatBytesLoop_ge _ _ h3, div_pow_succ]
  have h4 : ¬ q / 1024 ^ 4 < 1024 := by
    rw [not_lt, le_div_iff₀ (by positivity)]; norm_num; linarith
  rw [formatBytesLoop_ge _ _ h4, div_pow_succ]
  simp only [formatBytesLoop]

theorem fmt_tb : _format_bytes (.int (1024 ^ 4)) = "1.00 TB" := by
  rw [_format_bytes]
  rw [formatLoop_band _ 4 (by norm_num) (by push_cast; norm_num)
    (by push_cast; norm_num)]
  rw [show (((1024 ^ 4 : ℤ) : ℚ)) / 1024 ^ 4 = 1 from by push_cast; norm_num]
  decide

/-! ## System collector (app.py lines 12-21)

`get_system_info` copies six `platform` identity strings into the result
dictionary unchanged. -/

/-- The six strings reported by Python's `platform` module. -/
structure SystemIdentity where
  system : String
  node : String
  release : String
  version : String
  machine : String
  processor : String
deriving DecidableEq

/-- `SystemMonitor.get_system_info`: a field-for-field copy of the platform
identity strings. -/
def get_system_info (s : SystemIdentity) : SystemIdentity :=
  { system := s.system, node := s.node, release := s.release,
    version := s.version, machine := s.machine, processor := s.processor }

/-! ## CPU collector (app.py lines 23-30) -/

/-- The values the `psutil` CPU queries return on the host.
`per_cpu_length` records the documented `psutil` contract that
`cpu_percent(percpu=True)` returns one entry per logical CPU, i.e. as many
entries as `cpu_count()` reports. `cpu_freq` is `none` when the platform
exposes no frequency (`psutil.cpu_freq()` falsy). -/
structure CpuPlatform where
  cpu_percent : ℚ
  cpu_count : ℕ
  cpu_freq : Option ℚ
  per_cpu : List ℚ
  per_cpu_length : per_cpu.length = cpu_count

/-- The `cpu_freq` field of the result: either the current frequency or the
literal string `"N/A"` (the code stores one or the other in the dict). -/
inductive FreqField where
  | value (mhz : ℚ)
  | na
deriving DecidableEq

/-- `SystemMonitor.get_cpu_info`. -/
structure CpuResult where
  cpu_percent : ℚ
  cpu_count : ℕ
  cpu_freq : FreqField
  per_cpu : List ℚ
deriving DecidableEq

def get_cpu_info (p : CpuPlatform) : CpuResult :=
  { cpu_percent := p.cpu_percent,
    cpu_count := p.cpu_count,
    cpu_freq := match p.cpu_freq with
      | some f => .value f
      | none => .na,
    per_cpu := p.per_cpu }

/-! ## Memory collector (app.py lines 32-43) -/

/-- The values `psutil.virtual_memory()` returns. -/
structure MemPlatform where
  total : ℕ
  available : ℕ
  used : ℕ
  percent : ℚ
deriving DecidableEq

structure MemResult where
  total : ℕ
  available : ℕ
  used : ℕ
  percent : ℚ
  total_formatted : String
  available_formatted : String
  used_formatted : String
deriving DecidableEq

/-- `SystemMonitor.get_memory_info`. -/
def get_memory_info (m : MemPlatform) : MemResult :=
  { total := m.total, available := m.available, used := m.used,
    percent := m.percent,
    total_formatted := _format_bytes (.int m.total),
    available_formatted := _format_bytes (.int m.available),
    used_formatted := _format_bytes (.int m.used) }

/-! ## Disk collector (app.py lines 45-88) -/

/-- The exception classes caught by the partition loop:
`except (PermissionError, OSError)`. -/
inductive DiskErr where
  | permissionError
  | osError
deriving DecidableEq

/-- Equality of modelled exception outcomes is decidable. -/
instance {ε α : Type} [DecidableEq ε] [DecidableEq α] :
    DecidableEq (Except ε α) := fun a b =>
  match a, b with
  | .error e, .error f =>
    if h : e = f then .isTrue (by rw [h]) else .isFalse (by simp [h])
  | .ok x, .ok y =>
    if h : x = y then .isTrue (by rw [h]) else .isFalse (by simp [h])
  | .error _, .ok _ => .isFalse (by simp)
  | .ok _, .error _ => .isFalse (by simp)

/-- The values a successful `psutil.disk_usage(path)` returns. -/
structure DiskUsage where
  total : ℕ
  used : ℕ
  free : ℕ
  percent : ℚ
deriving DecidableEq

/-- One element of `psutil.disk_partitions()`, together with the outcome of
querying `psutil.disk_usage(partition.mountpoint)` for it: either the usage
record or the raised access error. -/
structure PartitionPlatform where
  device : String
  mountpoint : String
  fstype : String
  usage : Except DiskErr DiskUsage
deriving DecidableEq

/-- The values `psutil.disk_io_counters()` returns when counters exist. -/
structure IOCounters where
  read_bytes : ℕ
  write_bytes : ℕ
deriving DecidableEq

/-- Host state consumed by `get_disk_info`: root usage, the optional
I/O counters (`disk_io_counters()` returns `None` when the platform exposes
none), and the mounted partitions. -/
structure DiskPlatform where
  root_usage : DiskUsage
  ioCounters : Option IOCounters
  partitions : List PartitionPlatform
deriving DecidableEq

/-- One entry of the `partitions` list built by the loop. -/
structure PartitionEntry where
  device : String
  mountpoint : String
  fstype : String
  total : ℕ
  used : ℕ
  free : ℕ
  percent : ℚ
  total_formatted : String
  used_formatted : String
  free_formatted : String
deriving DecidableEq

structure MainDisk where
  total : ℕ
  used : ℕ
  free : ℕ
  percent : ℚ
  total_formatted : String
  used_formatted : String
  free_formatted : String
deriving DecidableEq

/-- The `io` sub-dictionary of the disk result (app.py lines 81-86). -/
structure IOSection where
  read_bytes : ℕ
  write_bytes : ℕ
  read_bytes_formatted : String
  write_bytes_formatted : String
deriving DecidableEq

structure DiskResult where
  main_disk : MainDisk
  ioSec : IOSection
  partitions : List PartitionEntry
deriving DecidableEq

/-- The dictionary appended for an accessible partition. -/
def partitionEntry (p : PartitionPlatform) (u : DiskUsage) : PartitionEntry :=
  { device := p.device, mountpoint := p.mountpoint, fstype := p.fstype,
    total := u.total, used := u.used, free := u.free, percent := u.percent,
    total_formatted := _format_bytes (.int u.total),
    used_formatted := _format_bytes (.int u.used),
    free_formatted := _format_bytes (.int u.free) }

/-- The `for partition in psutil.disk_partitions():` loop: on a
`PermissionError` or `OSError` the partition is skipped (`pass`), otherwise
its entry is appended. -/
def partitionScan : List PartitionPlatform → List PartitionEntry
  | [] => []
  | p :: ps =>
    match p.usage with
    | .ok u => partitionEntry p u :: partitionScan ps
    | .error _ => partitionScan ps

/-- `SystemMonitor.get_disk_info`.  Note that when `io_counters` is `None`
the code stores the **number 0** in `read_bytes` / `write_bytes` and the
string `"N/A"` only in the formatted fields. -/
def get_disk_info (d : DiskPlatform) : DiskResult :=
  { main_disk :=
      { total := d.root_usage.total, used := d.root_usage.used,
        free := d.root_usage.free, percent := d.root_usage.percent,
        total_formatted := _format_bytes (.int d.root_usage.total),
        used_formatted := _format_bytes (.int d.root_usage.used),
        free_formatted := _format_bytes (.int d.root_usage.free) },
    ioSec :=
      match d.ioCounters with
      | some c =>
        { read_bytes := c.read_bytes, write_bytes := c.write_bytes,
          read_bytes_formatted := _format_bytes (.int c.read_bytes),
          write_bytes_formatted := _format_bytes (.int c.write_bytes) }
      | none =>
        { read_bytes := 0, write_bytes := 0,
          read_bytes_formatted := "N/A", write_bytes_formatted := "N/A" },
    partitions := partitionScan d.partitions }

/-! ## Network collector (app.py lines 90-123) -/

/-- Per-interface counters from `psutil.net_io_counters(pernic=True)`. -/
structure NicCounters where
  bytes_sent : ℕ
  bytes_recv : ℕ
deriving DecidableEq

/-- Outcome of `psutil.net_io_counters(pernic=True).get(interface)` combined
with the surrounding `try`: the lookup may raise (`KeyError`,
`AttributeError`), return `None` (absent), or return the counters. -/
inductive NicLookup where
  | raised
  | absent
  | found (c : NicCounters)
deriving DecidableEq

/-- One entry of `psutil.net_if_stats().items()` with the lookup outcome for
that interface name. -/
structure NicPlatform where
  name : String
  isup : Bool
  speed : ℤ
  mtu : ℕ
  lookup : NicLookup
deriving DecidableEq

/-- The values `psutil.net_io_counters()` (totals) returns. -/
structure NetTotals where
  bytes_sent : ℕ
  bytes_recv : ℕ
  packets_sent : ℕ
  packets_recv : ℕ
deriving DecidableEq

structure NetPlatform where
  total : NetTotals
  nics : List NicPlatform
deriving DecidableEq

structure InterfaceEntry where
  name : String
  speed : ℤ
  mtu : ℕ
  bytes_sent : ℕ
  bytes_recv : ℕ
  bytes_sent_formatted : String
  bytes_recv_formatted : String
deriving DecidableEq

structure NetTotalsResult where
  bytes_sent : ℕ
  bytes_recv : ℕ
  packets_sent : ℕ
  packets_recv : ℕ
  bytes_sent_formatted : String
  bytes_recv_formatted : String
deriving DecidableEq

structure NetResult where
  total : NetTotalsResult
  interfaces : List InterfaceEntry
deriving DecidableEq

/-- The dictionary appended for an up interface with counters. -/
def interfaceEntry (nic : NicPlatform) (c : NicCounters) : InterfaceEntry :=
  { name := nic.name, speed := nic.speed, mtu := nic.mtu,
    bytes_sent := c.bytes_sent, bytes_recv := c.bytes_recv,
    bytes_sent_formatted := _format_bytes (.int c.bytes_sent),
    bytes_recv_formatted := _format_bytes (.int c.bytes_recv) }

/-- The `for interface, stats in psutil.net_if_stats().items():` loop:
interfaces that are not up are not considered; a raised lookup is swallowed
by the `except` (`pass`); a `None` lookup fails the `if interface_io:` test;
otherwise the entry is appended. -/
def interfaceScan : List NicPlatform → List InterfaceEntry
  | [] => []
  | nic :: nics =>
    if nic.isup then
      match nic.lookup with
      | .found c => interfaceEntry nic c :: interfaceScan nics
      | _ => interfaceScan nics
    else interfaceScan nics

/-- `SystemMonitor.get_network_info`. -/
def get_network_info (n : NetPlatform) : NetResult :=
  { total :=
      { bytes_sent := n.total.bytes_sent, bytes_recv := n.total.bytes_recv,
        packets_sent := n.total.packets_sent,
        packets_recv := n.total.packets_recv,
        bytes_sent_formatted := _format_bytes (.int n.total.bytes_sent),
        bytes_recv_formatted := _format_bytes (.int n.total.bytes_recv) },
    interfaces := interfaceScan n.nics }

/-! ## Process collector (app.py lines 125-149) -/

/-- The exception classes caught by the per-process `try`:
`except (psutil.NoSuchProcess, psutil.AccessDenied, psutil.ZombieProcess)`. -/
inductive ProcErr where
  | noSuchProcess
  | accessDenied
  | zombieProcess
deriving DecidableEq

/-- One process as yielded by `psutil.process_iter([...])` (the pre-fetched
`proc.info` dictionary), together with the outcome of the later
`proc.memory_info()` detail read: the resident size in bytes, or the raised
per-process error if the process has gone away, is denied, or is a zombie by
the time the detail is read. -/
structure ProcPlatform where
  pid : ℕ
  name : String
  username : Option String
  cpu_percent : Option ℚ
  memory_percent : Option ℚ
  create_time : Option ℚ
  memory_info : Except ProcErr ℕ
deriving DecidableEq

/-- The sort key of line 128-129: `p.info['cpu_percent'] or 0`.  Python's
`or` yields `0` for both `None` and `0.0`, which coincides with `getD 0`. -/
def sortKey (p : ProcPlatform) : ℚ := p.cpu_percent.getD 0

/-- The comparison handed to the stable sort: `sorted(..., key=sortKey,
reverse=True)` orders by descending key, ties kept in enumeration order. -/
def procLe (a b : ProcPlatform) : Bool := decide (sortKey b ≤ sortKey a)

/-- `sorted(psutil.process_iter([...]), key=..., reverse=True)`: Python's
`sorted` is a stable sort; with `reverse=True` it orders by descending key
while ties keep their enumeration order, which is exactly `mergeSort` with
`procLe`. -/
def sortedProcs (procs : List ProcPlatform) : List ProcPlatform :=
  procs.mergeSort procLe

/-- `round(x, 1)` in Python: round-half-even at one decimal. -/
def pyRound1 (q : ℚ) : ℚ := Rat.divInt (roundHalfEvenFrac (q.num * 10) q.den) 10

/-- Models `datetime.datetime.fromtimestamp(t).strftime('%Y-%m-%d %H:%M:%S')`
as an injective rendering of the timestamp.  The calendar arithmetic of the
date format is abstracted; no claim concerns the rendered date text. -/
def formatTimestamp (t : ℚ) : String :=
  "time " ++ toString t.num ++ "/" ++ toString t.den

/-- One dictionary appended to `processes` (app.py lines 138-146). -/
structure ProcRecord where
  pid : ℕ
  name : String
  username : Option String
  cpu_percent : Option ℚ
  memory_percent : ℚ
  memory_rss : String
  create_time : String
deriving DecidableEq

/-- The record built inside the `try` for a process whose `memory_info()`
returned `rss`.  Line 132: `... if proc.info['create_time'] else "Unknown"`
(falsy for `None` and for timestamp `0`); line 143:
`round(memory_percent, 1) if memory_percent else 0` (falsy for `None` and
for `0.0`, so the rounding branch is skipped for both). -/
def procRecord (p : ProcPlatform) (rss : ℕ) : ProcRecord :=
  { pid := p.pid, name := p.name, username := p.username,
    cpu_percent := p.cpu_percent,
    memory_percent :=
      match p.memory_percent with
      | some m => if m = 0 then 0 else pyRound1 m
      | none => 0,
    memory_rss := _format_bytes (.int rss),
    create_time :=
      match p.create_time with
      | some t => if t = 0 then "Unknown" else formatTimestamp t
      | none => "Unknown" }

/-- The body of the `for proc in sorted(...)[:top_n]` loop: build the record,
or skip the process (`pass`) when the detail read raises one of the three
caught per-process errors. -/
def detailRead (p : ProcPlatform) : Option ProcRecord :=
  match p.memory_info with
  | .ok rss => some (procRecord p rss)
  | .error _ => none

/-- `true` when the detail read of `p` succeeds. -/
def memOk (p : ProcPlatform) : Bool :=
  match p.memory_info with
  | .ok _ => true
  | .error _ => false

/-- `SystemMonitor.get_process_info` (default `top_n=10`): stable-sort the
enumerated processes by descending cpu key, keep the first `top_n`, and for
each attempt the detail read, dropping the process on a caught error. -/
def get_process_info (procs : List ProcPlatform) (top_n : ℕ := 10) :
    List ProcRecord :=
  ((sortedProcs procs).take top_n).filterMap detailRead

/-! ## Snapshot aggregator (app.py lines 161-171) -/

/-- The whole host state read during one capture. -/
structure HostPlatform where
  timestamp : String
  system : SystemIdentity
  cpu : CpuPlatform
  memory : MemPlatform
  disk : DiskPlatform
  network : NetPlatform
  procs : List ProcPlatform

structure Snapshot where
  timestamp : String
  system : SystemIdentity
  cpu : CpuResult
  memory : MemResult
  disk : DiskResult
  network : NetResult
  processes : List ProcRecord

/-- `SystemMonitor.get_all_info`: assemble the six collector results and the
timestamp.  `get_process_info` is called with its default `top_n = 10`. -/
def get_all_info (h : HostPlatform) : Snapshot :=
  { timestamp := h.timestamp,
    system := get_system_info h.system,
    cpu := get_cpu_info h.cpu,
    memory := get_memory_info h.memory,
    disk := get_disk_info h.disk,
    network := get_network_info h.network,
    processes := get_process_info h.procs }

/-! ## Helper predicates and characterization lemmas -/

/-- `true` when the usage query of a partition succeeds. -/
def usageOk (p : PartitionPlatform) : Bool :=
  match p.usage with
  | .ok _ => true
  | .error _ => false

/-- The usage value of an accessible partition (default on the error case,
never used for accessible partitions). -/
def usageVal (p : PartitionPlatform) : DiskUsage :=
  match p.usage with
  | .ok u => u
  | .error _ => ⟨0, 0, 0, 0⟩

theorem partitionScan_eq (l : List PartitionPlatform) :
    partitionScan l
      = (l.filter usageOk).map (fun p => partitionEntry p (usageVal p)) := by
  induction l with
  | nil => rfl
  | cons p ps ih =>
    cases h : p.usage with
    | ok u => simp [partitionScan, List.filter_cons, usageOk, usageVal, h, ih]
    | error e => simp [partitionScan, List.filter_cons, usageOk, h, ih]

theorem partitionScan_length (l : List PartitionPlatform) :
    (partitionScan l).length + (l.filter (fun p => ! usageOk p)).length
      = l.length := by
  induction l with
  | nil => rfl
  | cons p ps ih =>
    cases h : p.usage with
    | ok u =>
      have hok : usageOk p = true := by simp [usageOk, h]
      simp [partitionScan, h, List.filter_cons, hok]
      omega
    | error e =>
      have hok : usageOk p = false := by simp [usageOk, h]
      simp [partitionScan, h, List.filter_cons, hok]
      omega

/-- `true` when an interface is up and its counter lookup found counters. -/
def nicOk (nic : NicPlatform) : Bool :=
  nic.isup &&
    match nic.lookup with
    | .found _ => true
    | _ => false

/-- The counters of an interface whose lookup succeeded (default on the
other cases, never used for kept interfaces). -/
def nicVal (nic : NicPlatform) : NicCounters :=
  match nic.lookup with
  | .found c => c
  | _ => ⟨0, 0⟩

theorem interfaceScan_eq (l : List NicPlatform) :
    interfaceScan l
      = (l.filter nicOk).map (fun nic => interfaceEntry nic (nicVal nic)) := by
  induction l with
  | nil => rfl
  | cons nic nics ih =>
    cases hup : nic.isup with
    | false => simp [interfaceScan, List.filter_cons, nicOk, hup, ih]
    | true =>
      cases h : nic.lookup with
      | found c =>
        simp [interfaceScan, List.filter_cons, nicOk, nicVal, hup, h, ih]
      | raised =>
        simp [interfaceScan, List.filter_cons, nicOk, hup, h, ih]
      | absent =>
        simp [interfaceScan, List.filter_cons, nicOk, hup, h, ih]

/-- The rss value read for a process whose detail read succeeded (default on
the error case, never used for kept processes). -/
def rssVal (p : ProcPlatform) : ℕ :=
  match p.memory_info with
  | .ok r => r
  | .error _ => 0

/-- The record of a process with a successful detail read. -/
def fullRecord (p : ProcPlatform) : ProcRecord := procRecord p (rssVal p)

theorem filterMap_detailRead_eq (l : List ProcPlatform) :
    l.filterMap detailRead = (l.filter memOk).map fullRecord := by
  induction l with
  | nil => rfl
  | cons p ps ih =>
    cases h : p.memory_info with
    | ok r =>
      simp [List.filterMap_cons, List.filter_cons, detailRead, memOk,
        fullRecord, rssVal, h, ih]
    | error e =>
      simp [List.filterMap_cons, List.filter_cons, detailRead, memOk, h, ih]

theorem filterMap_all_some_length {α β : Type} (f : α → Option β)
    (l : List α) (h : ∀ a ∈ l, (f a).isSome) :
    (l.filterMap f).length = l.length := by
  induction l with
  | nil => rfl
  | cons a as ih =>
    have ha := h a (by simp)
    cases hf : f a with
    | none => rw [hf] at ha; simp at ha
    | some b =>
      simp only [List.filterMap_cons, hf, List.length_cons]
      rw [ih (fun x hx => h x (by simp [hx]))]

/-! ## Claim theorems -/

/-- C1: for any list of mounted partitions, the disk collector keeps exactly
the accessible partitions, in enumeration order, each rendered with device,
mountpoint, fstype, raw byte counts, percent and formatted strings, so the
`partitions` sequence has exactly N − M entries when M of the N partitions
raise a permission or access error; the collector (and hence the overall
capture, which embeds its result unchanged) is a total function and does not
fail. -/
theorem partition_isolation (d : DiskPlatform) :
    (get_disk_info d).partitions
      = (d.partitions.filter usageOk).map (fun p => partitionEntry p (usageVal p))
    ∧ (get_disk_info d).partitions.length
      = d.partitions.length - (d.partitions.filter (fun p => ! usageOk p)).length
    ∧ (∀ h : HostPlatform, (get_all_info h).disk = get_disk_info h.disk) := by
  refine ⟨partitionScan_eq d.partitions, ?_, fun _ => rfl⟩
  have h2 := partitionScan_length d.partitions
  show (partitionScan d.partitions).length = _
  omega

/-- C1 instantiation: with three partitions of which the middle one raises
`PermissionError`, the disk section has exactly 3 − 1 = 2 entries. -/
theorem partition_isolation_witness :
    (get_disk_info
      { root_usage := ⟨500, 200, 300, 40⟩,
        ioCounters := some ⟨10, 20⟩,
        partitions :=
          [⟨"/dev/sda1", "/", "ext4", .ok ⟨500, 200, 300, 40⟩⟩,
           ⟨"/dev/sda2", "/locked", "ext4", .error .permissionError⟩,
           ⟨"/dev/sda3", "/data", "ext4", .ok ⟨600, 100, 500, 17⟩⟩] }).partitions.length
      = 3 - 1 :=
  (partition_isolation _).2.1

/-- C6 counterexample: when the platform exposes no I/O counters, the raw
`read_bytes`/`write_bytes` of the `io` section are the number 0, identical to
the section produced for legitimate zero counters — not a null sentinel
distinguishable from legitimate zeros, contrary to the claim. -/
theorem disk_io_claim_cex :
    (get_disk_info
        { root_usage := ⟨500, 200, 300, 40⟩, ioCounters := Option.none,
          partitions := [] }).ioSec.read_bytes
      = (get_disk_info
        { root_usage := ⟨500, 200, 300, 40⟩, ioCounters := some ⟨0, 0⟩,
          partitions := [] }).ioSec.read_bytes
    ∧ (get_disk_info
        { root_usage := ⟨500, 200, 300, 40⟩, ioCounters := Option.none,
          partitions := [] }).ioSec.write_bytes
      = (get_disk_info
        { root_usage := ⟨500, 200, 300, 40⟩, ioCounters := some ⟨0, 0⟩,
          partitions := [] }).ioSec.write_bytes
    ∧ (get_disk_info
        { root_usage := ⟨500, 200, 300, 40⟩, ioCounters := Option.none,
          partitions := [] }).ioSec.read_bytes = 0 := by
  refine ⟨rfl, rfl, rfl⟩

/-- C6 (amended): when the platform exposes no disk I/O counters,
`get_disk_info` still returns normally; the `io` section is not a null
sentinel — its raw `read_bytes`/`write_bytes` are the number 0
(indistinguishable from legitimate zero counters) and only the formatted
fields carry the `"N/A"` sentinel (legitimate zero counters format as
`"0.00 B"` instead). -/
theorem disk_io_unavailable (d : DiskPlatform)
    (h : d.ioCounters = Option.none) :
    (get_disk_info d).ioSec.read_bytes = 0
    ∧ (get_disk_info d).ioSec.write_bytes = 0
    ∧ (get_disk_info d).ioSec.read_bytes_formatted = "N/A"
    ∧ (get_disk_info d).ioSec.write_bytes_formatted = "N/A" := by
  simp [get_disk_info, h]

/-- C6 witness: the amended statement at a concrete platform without
I/O counters. -/
theorem disk_io_unavailable_witness :
    (DiskPlatform.mk ⟨500, 200, 300, 40⟩ Option.none []).ioCounters = Option.none
    ∧ (get_disk_info
        (DiskPlatform.mk ⟨500, 200, 300, 40⟩ Option.none [])).ioSec.read_bytes_formatted
      = "N/A" :=
  ⟨rfl, (disk_io_unavailable _ rfl).2.2.1⟩

/-- C7: the `interfaces` sequence contains exactly the interfaces that are
up and whose per-interface counter lookup returned counters (in enumeration
order, each with name, speed, MTU and cumulative byte counters); interfaces
that are down, whose lookup raised, or whose counters are absent are
omitted, and the collector is a total function (no error escapes). -/
theorem interface_filtering (n : NetPlatform) :
    (get_network_info n).interfaces
      = (n.nics.filter nicOk).map (fun nic => interfaceEntry nic (nicVal nic))
    ∧ (∀ e ∈ (get_network_info n).interfaces,
        ∃ nic, nic ∈ n.nics ∧ nicOk nic = true
          ∧ e = interfaceEntry nic (nicVal nic)) := by
  refine ⟨interfaceScan_eq n.nics, ?_⟩
  intro e he
  rw [show (get_network_info n).interfaces = interfaceScan n.nics from rfl,
    interfaceScan_eq] at he
  rcases List.mem_map.1 he with ⟨nic, hmem, hentry⟩
  exact ⟨nic, List.mem_of_mem_filter hmem,
    List.of_mem_filter hmem, hentry.symm⟩

/-- C7 instantiation: a down interface and an up interface with absent
counters are dropped; the up interface with counters is kept. -/
theorem interface_filtering_witness :
    (get_network_info
      { total := ⟨1, 2, 3, 4⟩,
        nics :=
          [⟨"eth0", true, 1000, 1500, .found ⟨100, 200⟩⟩,
           ⟨"eth1", false, 100, 1500, .found ⟨5, 6⟩⟩,
           ⟨"wlan0", true, 0, 1500, .absent⟩] }).interfaces
      = [interfaceEntry ⟨"eth0", true, 1000, 1500, .found ⟨100, 200⟩⟩ ⟨100, 200⟩] :=
  (interface_filtering _).1

/-- C4: the formatter's numeric contract: for a non-negative byte count the
loop divides by 1024 while the value stays at or above 1024, escalating the
unit through B, KB, MB, GB, TB (landing in the `k`-th unit exactly on the
band `1024^k ≤ q < 1024^(k+1)`), renders with exactly two decimals (`fix2`
models `%.2f`), never escalates past PB (any value of at least `1024^5`
bytes is shown in PB), and meets the spec's concrete examples. -/
theorem formatter_numeric_contract (q : ℚ) (hq : 0 ≤ q) :
    (∀ k : ℕ, k < 5 → 1024 ^ k ≤ q → q < 1024 ^ (k + 1) →
      _format_bytes (.float q) = fix2 (q / 1024 ^ k) ++ " " ++ unitAt k)
    ∧ ((1024 : ℚ) ^ 5 ≤ q →
      _format_bytes (.float q) = fix2 (q / 1024 ^ 5) ++ " PB")
    ∧ _format_bytes (.int 0) = "0.00 B"
    ∧ _format_bytes (.int 1024) = "1.00 KB"
    ∧ _format_bytes (.int 1536) = "1.50 KB"
    ∧ _format_bytes (.int (1024 ^ 4)) = "1.00 TB" := by
  refine ⟨?_, ?_, fmt_zero, fmt_1024, fmt_1536, fmt_tb⟩
  · intro k hk hlow hhigh
    rw [_format_bytes]
    exact formatLoop_band q k hk hlow hhigh
  · intro h
    rw [_format_bytes]
    exact formatLoop_pb q h

/-- C4 witness: the contract applied at the non-negative count 1536. -/
theorem formatter_numeric_contract_witness :
    (0 : ℚ) ≤ 1536 ∧ _format_bytes (.int 1536) = "1.50 KB" :=
  ⟨by decide, (formatter_numeric_contract 1536 (by decide)).2.2.2.2.1⟩

/-- C8: any non-numeric input (a string, or the `None` sentinel) makes
`_format_bytes` return the literal `"N/A"`; being a total function, the
formatter never raises. -/
theorem formatter_non_numeric (v : PyVal) (h : v.isNumeric = false) :
    _format_bytes v = "N/A" := by
  cases v with
  | int n => simp [PyVal.isNumeric] at h
  | float q => simp [PyVal.isNumeric] at h
  | str s => rfl
  | none => rfl

/-- C8 witness: the spec's own example `format("not a number") == "N/A"`. -/
theorem formatter_non_numeric_witness :
    (PyVal.str "not a number").isNumeric = false
    ∧ _format_bytes (.str "not a number") = "N/A" :=
  ⟨rfl, formatter_non_numeric _ rfl⟩

/-- C9: the implicit null-to-zero coercions of the process collector: a
`None` cpu reading gets sort key 0, exactly as a legitimate `0.0` reading
does; and an emitted record's `memory_percent` is the number 0 both for a
`None` and for an exactly-zero reading (the `round(x, 1)` branch being
skipped by Python's falsiness test).  `sortKey` and the record field
`memory_percent` are plain rationals by construction, so no "unavailable"
sentinel distinct from zero is ever produced for them. -/
theorem process_null_coercion :
    (∀ p : ProcPlatform, p.cpu_percent = Option.none → sortKey p = 0)
    ∧ (∀ p : ProcPlatform, p.cpu_percent = some 0 → sortKey p = 0)
    ∧ (∀ (p : ProcPlatform) (rss : ℕ), p.memory_percent = Option.none →
        (procRecord p rss).memory_percent = 0)
    ∧ (∀ (p : ProcPlatform) (rss : ℕ), p.memory_percent = some 0 →
        (procRecord p rss).memory_percent = 0) := by
  refine ⟨?_, ?_, ?_, ?_⟩
  · intro p h; simp [sortKey, h]
  · intro p h; simp [sortKey, h]
  · intro p rss h; simp [procRecord, h]
  · intro p rss h; simp [procRecord, h]

/-- C9 witness: the coercions evaluated on a process with `None` cpu and
memory readings and on one with exact zeros. -/
theorem process_null_coercion_witness :
    sortKey ⟨1, "a", Option.none, Option.none, Option.none, Option.none, .ok 10⟩ = 0
    ∧ sortKey ⟨2, "b", Option.none, some 0, some 0, Option.none, .ok 10⟩ = 0
    ∧ (procRecord ⟨1, "a", Option.none, Option.none, Option.none, Option.none, .ok 10⟩ 10).memory_percent = 0
    ∧ (procRecord ⟨2, "b", Option.none, some 0, some 0, Option.none, .ok 10⟩ 10).memory_percent = 0 :=
  ⟨process_null_coercion.1 _ rfl, process_null_coercion.2.1 _ rfl,
   process_null_coercion.2.2.1 _ _ rfl, process_null_coercion.2.2.2 _ _ rfl⟩

/-- C10: the byte formatter is a pure function of its argument — formatting
equal inputs yields identical strings.  In this embedding `_format_bytes` is
a state-free function, so two calls (in the same or different runs) with the
same input necessarily agree. -/
theorem formatter_deterministic (v w : PyVal) (h : v = w) :
    _format_bytes v = _format_bytes w := by
  rw [h]

/-- C2: a process whose detail read signals no-such-process, access-denied
or zombie/exited is absent from the returned list (no record carries its
pid, pids being unique), every returned record stems from a process whose
detail read succeeded, and the collector — a total function — returns
normally; none of the three caught per-process error kinds escapes. -/
theorem process_isolation (procs : List ProcPlatform) (top_n : ℕ)
    (hnd : (procs.map ProcPlatform.pid).Nodup) :
    (∀ p ∈ procs, memOk p = false →
      ∀ r ∈ get_process_info procs top_n, r.pid ≠ p.pid)
    ∧ (∀ r ∈ get_process_info procs top_n,
      ∃ p, p ∈ procs ∧ memOk p = true ∧ detailRead p = some r) := by
  have hsrc : ∀ r ∈ get_process_info procs top_n,
      ∃ p, p ∈ procs ∧ memOk p = true ∧ detailRead p = some r := by
    intro r hr
    rw [get_process_info] at hr
    rcases List.mem_filterMap.1 hr with ⟨p, hp, hd⟩
    have hp2 : p ∈ procs :=
      List.mem_mergeSort.1 (List.mem_of_mem_take hp)
    cases hm : p.memory_info with
    | ok rss => exact ⟨p, hp2, by simp [memOk, hm], hd⟩
    | error e => rw [detailRead, hm] at hd; cases hd
  refine ⟨?_, hsrc⟩
  intro p hp hbad r hr heq
  rcases hsrc r hr with ⟨p', hp', hok', hd'⟩
  have hpid : r.pid = p'.pid := by
    cases hm : p'.memory_info with
    | ok rss =>
      rw [detailRead, hm] at hd'
      cases hd'
      rfl
    | error e => rw [memOk, hm] at hok'; cases hok'
  have hpp : p' = p :=
    List.inj_on_of_nodup_map hnd hp' hp (by rw [← hpid, heq])
  rw [hpp, hbad] at hok'
  cases hok'

/-- C2 instantiation: with two processes of distinct pids, the one whose
detail read raises no-such-process contributes no record with its pid. -/
theorem process_isolation_witness :
    (([⟨1, "alive", Option.none, some 5, some 2, Option.none, .ok 100⟩,
       ⟨2, "gone", Option.none, some 9, some 1, Option.none,
        .error .noSuchProcess⟩] : List ProcPlatform).map ProcPlatform.pid).Nodup
    ∧ (∀ r ∈ get_process_info
        [⟨1, "alive", Option.none, some 5, some 2, Option.none, .ok 100⟩,
         ⟨2, "gone", Option.none, some 9, some 1, Option.none,
          .error .noSuchProcess⟩] 10, r.pid ≠ 2) :=
  ⟨by decide,
    (process_isolation _ 10 (by decide)).1
      ⟨2, "gone", Option.none, some 9, some 1, Option.none,
        .error .noSuchProcess⟩ (by decide) (by decide)⟩

/-- C3: `get_process_info` ranks by descending cpu key: the result never has
more than `top_n` records and is sorted descending in `cpu_percent or 0`;
the underlying sort is by descending `sortKey` (a `None` cpu reading keyed
as 0), is a permutation of the enumeration, and is stable: a tied pair keeps
its enumeration order. -/
theorem process_ranking (procs : List ProcPlatform) (top_n : ℕ) :
    (get_process_info procs top_n).length ≤ top_n
    ∧ (get_process_info procs top_n).Pairwise
        (fun a b => b.cpu_percent.getD 0 ≤ a.cpu_percent.getD 0)
    ∧ (sortedProcs procs).Pairwise (fun a b => sortKey b ≤ sortKey a)
    ∧ (sortedProcs procs).Perm procs
    ∧ (∀ a b : ProcPlatform, sortKey a = sortKey b →
        List.Sublist [a, b] procs → List.Sublist [a, b] (sortedProcs procs))
    ∧ (∀ p : ProcPlatform, p.cpu_percent = Option.none → sortKey p = 0) := by
  have htrans : ∀ (a b c : ProcPlatform), procLe a b → procLe b c → procLe a c := by
    intro a b c hab hbc
    simp only [procLe, decide_eq_true_eq] at hab hbc ⊢
    exact le_trans hbc hab
  have htotal : ∀ (a b : ProcPlatform), procLe a b || procLe b a := by
    intro a b
    simp only [procLe, Bool.or_eq_true, decide_eq_true_eq]
    exact le_total (sortKey b) (sortKey a)
  have hsorted : (sortedProcs procs).Pairwise (fun a b => sortKey b ≤ sortKey a) := by
    have hs := List.sorted_mergeSort htrans htotal procs
    exact hs.imp (by intro a b h; simpa [procLe, decide_eq_true_eq] using h)
  have heq : get_process_info procs top_n
      = (((sortedProcs procs).take top_n).filter memOk).map fullRecord := by
    rw [get_process_info, filterMap_detailRead_eq]
  refine ⟨?_, ?_, hsorted, List.mergeSort_perm procs procLe, ?_, ?_⟩
  · rw [heq, List.length_map]
    exact le_trans (List.length_filter_le _ _) (List.length_take_le _ _)
  · rw [heq]
    have htake := hsorted.sublist (List.take_sublist top_n (sortedProcs procs))
    have hfil : (((sortedProcs procs).take top_n).filter memOk).Pairwise
        (fun a b => sortKey b ≤ sortKey a) :=
      htake.sublist (List.filter_sublist ((sortedProcs procs).take top_n))
    exact List.pairwise_map.2 (hfil.imp (fun {a b} h => h))
  · intro a b htie hsub
    refine List.pair_sublist_mergeSort htrans htotal ?_ hsub
    simp only [procLe, decide_eq_true_eq]
    exact le_of_eq htie.symm
  · intro p h
    simp [sortKey, h]

/-- C3 instantiation: a concrete tie is kept in enumeration order, and the
result of a two-element collection with `top_n = 1` has length at most 1. -/
theorem process_ranking_witness :
    sortKey ⟨1, "a", Option.none, some 5, some 2, Option.none, .ok 100⟩
      = sortKey ⟨2, "b", Option.none, some 5, some 1, Option.none, .ok 200⟩
    ∧ List.Sublist
        [⟨1, "a", Option.none, some 5, some 2, Option.none, .ok 100⟩,
         ⟨2, "b", Option.none, some 5, some 1, Option.none, .ok 200⟩]
        (sortedProcs
          [⟨1, "a", Option.none, some 5, some 2, Option.none, .ok 100⟩,
           ⟨2, "b", Option.none, some 5, some 1, Option.none, .ok 200⟩])
    ∧ (get_process_info
        [⟨1, "a", Option.none, some 5, some 2, Option.none, .ok 100⟩,
         ⟨2, "b", Option.none, some 5, some 1, Option.none, .ok 200⟩] 1).length ≤ 1 :=
  ⟨by decide,
    (process_ranking _ 1).2.2.2.2.1 _ _ (by decide) (List.Sublist.refl _),
    (process_ranking _ 1).1⟩

/-- A single-process host whose process disappears between enumeration and
detail read; used to refute claim C5 as stated. -/
def raceHost : HostPlatform :=
  { timestamp := "2026-10-12 00:00:00",
    system := ⟨"Linux", "host", "6.1", "v", "x86_64", "cpu"⟩,
    cpu := ⟨0, 0, Option.none, [], rfl⟩,
    memory := ⟨100, 50, 50, 50⟩,
    disk := { root_usage := ⟨500, 200, 300, 40⟩, ioCounters := Option.none,
              partitions := [] },
    network := { total := ⟨0, 0, 0, 0⟩, nics := [] },
    procs := [⟨1, "gone", Option.none, some 1, some 1, Option.none,
      .error .noSuchProcess⟩] }

/-- C5 counterexample: on a host with one enumerated process whose detail
read raises no-such-process, the capture's `processes` sequence is empty,
so its length 0 differs from `min(top_n, total_process_count) = min(10, 1)
= 1` — the claim fails for captures in which a selected process's detail
read fails. -/
theorem snapshot_shape_cex :
    (get_all_info raceHost).processes.length
      ≠ min 10 raceHost.procs.length := by
  have h1 : (get_all_info raceHost).processes = [] := by
    simp [get_all_info, get_process_info, sortedProcs, raceHost,
      List.mergeSort, detailRead]
  rw [h1]
  decide

/-- C5 (amended): a capture returns a snapshot whose `processes` length is
`min(top_n, total_process_count)` (with the code's fixed `top_n = 10`)
provided no enumerated process's detail read fails — one fewer for each
selected process dropped by the per-process race handling — and whose
`cpu.per_cpu` length equals `cpu.cpu_count` (per `psutil`'s contract of one
per-core sample per logical CPU). -/
theorem snapshot_shape (h : HostPlatform)
    (hall : ∀ p ∈ h.procs, memOk p = true) :
    (get_all_info h).processes.length = min 10 h.procs.length
    ∧ (get_all_info h).cpu.per_cpu.length = (get_all_info h).cpu.cpu_count := by
  constructor
  · show (get_process_info h.procs 10).length = _
    rw [get_process_info]
    have hsome : ∀ p ∈ (sortedProcs h.procs).take 10, (detailRead p).isSome := by
      intro p hp
      have hp2 : p ∈ h.procs := List.mem_mergeSort.1 (List.mem_of_mem_take hp)
      have hok := hall p hp2
      cases hm : p.memory_info with
      | ok rss => simp [detailRead, hm]
      | error e => rw [memOk, hm] at hok; cases hok
    rw [filterMap_all_some_length _ _ hsome, List.length_take, sortedProcs,
      (List.mergeSort_perm h.procs procLe).length_eq]
  · show h.cpu.per_cpu.length = h.cpu.cpu_count
    exact h.cpu.per_cpu_length

/-- C5 witness: the amended statement on a concrete two-core host with one
accessible process. -/
theorem snapshot_shape_witness :
    (∀ p ∈ (HostPlatform.mk "t" ⟨"L", "h", "r", "v", "m", "c"⟩
        ⟨50, 2, some 2400, [10, 20], rfl⟩ ⟨100, 50, 50, 50⟩
        ⟨⟨500, 200, 300, 40⟩, some ⟨10, 20⟩, []⟩ ⟨⟨0, 0, 0, 0⟩, []⟩
        [⟨1, "alive", some "root", some 5, some 2, some 7, .ok 512⟩]).procs,
      memOk p = true)
    ∧ (get_all_info (HostPlatform.mk "t" ⟨"L", "h", "r", "v", "m", "c"⟩
        ⟨50, 2, some 2400, [10, 20], rfl⟩ ⟨100, 50, 50, 50⟩
        ⟨⟨500, 200, 300, 40⟩, some ⟨10, 20⟩, []⟩ ⟨⟨0, 0, 0, 0⟩, []⟩
        [⟨1, "alive", some "root", some 5, some 2, some 7, .ok 512⟩])).processes.length
      = min 10 1
    ∧ (get_all_info (HostPlatform.mk "t" ⟨"L", "h", "r", "v", "m", "c"⟩
        ⟨50, 2, some 2400, [10, 20], rfl⟩ ⟨100, 50, 50, 50⟩
        ⟨⟨500, 200, 300, 40⟩, some ⟨10, 20⟩, []⟩ ⟨⟨0, 0, 0, 0⟩, []⟩
        [⟨1, "alive", some "root", some 5, some 2, some 7, .ok 512⟩])).cpu.per_cpu.length
      = (get_all_info (HostPlatform.mk "t" ⟨"L", "h", "r", "v", "m", "c"⟩
        ⟨50, 2, some 2400, [10, 20], rfl⟩ ⟨100, 50, 50, 50⟩
        ⟨⟨500, 200, 300, 40⟩, some ⟨10, 20⟩, []⟩ ⟨⟨0, 0, 0, 0⟩, []⟩
        [⟨1, "alive", some "root", some 5, some 2, some 7, .ok 512⟩])).cpu.cpu_count :=
  ⟨by decide,
    (snapshot_shape _ (by decide)).1,
    (snapshot_shape _ (by decide)).2⟩

/-- C10 witness: determinism evaluated at a concrete input. -/
theorem formatter_deterministic_witness :
    PyVal.int 5 = PyVal.int 5
    ∧ _format_bytes (.int 5) = _format_bytes (.int 5) :=
  ⟨rfl, formatter_deterministic (.int 5) (.int 5) rfl⟩

end SysMon
